import Mathlib

/-!
Verification of filmweb-export-rs.

Shallow embedding of the relevant parts of `src/lib.rs`, `src/main.rs` and
`src/error.rs`, together with theorems settling the specification claims.
Machine integers (`u8`, `u16`, `u32`) are embedded as `Nat`, with explicit
range guards where the source's numeric parsing enforces them and an
explicit wrap where `u32` arithmetic could overflow.  The `f64` arithmetic
of the duration check multiplies small integers by short decimal constants
and compares against integers; it is embedded as exact rational
arithmetic, which agrees with the `f64` computation except within one ulp
of a band edge, a regime none of the claims' inputs touches.
-/

/-- The error enumeration of `src/error.rs` (`FwErrors`).  The three
wrapper variants (`ReqwestError`, `InvalidHeaderValue`, `InvalidId`)
carry external library errors that the embedded code paths never
construct, so they are not modelled. -/
inductive FwErrors
  | ZeroResults
  | InvalidDuration
  | InvalidJwt
  | InvalidYear (title_id : Nat) (failed_year : String)
  | InvalidCredentials
  deriving DecidableEq, Repr

/-- `Year` from `src/lib.rs`: a single year, or an inclusive range (used
for serials such as "2015-2019"). -/
inductive Year
  | OneYear (y : Nat)
  | Range (start stop : Nat)
  deriving DecidableEq, Repr

/-- Whitespace trim on character lists.  Rust `str::trim` strips Unicode
whitespace; `Char.isWhitespace` covers the ASCII subset, which is all the
source's inputs use. -/
def trimChars (l : List Char) : List Char :=
  ((l.dropWhile Char.isWhitespace).reverse.dropWhile Char.isWhitespace).reverse

/-- Splitting a character list at a separator character, keeping empty
chunks, like Rust `str::split(char)` (helper, with accumulator). -/
def splitOnCharAux (sep : Char) : List Char → List Char → List (List Char)
  | [], acc => [acc.reverse]
  | c :: cs, acc =>
    if c == sep then acc.reverse :: splitOnCharAux sep cs []
    else splitOnCharAux sep cs (c :: acc)

/-- Splitting a character list at a separator character, like Rust
`str::split(char)`: "2015-" splits into the chunk "2015" and an empty
chunk. -/
def splitOnChar (l : List Char) (sep : Char) : List (List Char) :=
  splitOnCharAux sep l []

/-- Value of a non-empty all-digit character list, `none` otherwise
(helper for the unsigned numeric parsers). -/
def digitsVal? (l : List Char) : Option Nat :=
  if !l.isEmpty && l.all Char.isDigit then
    some (l.foldl (fun n c => n * 10 + (c.toNat - 48)) 0)
  else none

/-- Rust `str::parse` for an unsigned integer type with exclusive upper
bound `bound`: an optional leading `+`, then decimal digits; fails on
anything else or when the value does not fit the type. -/
def parseUnsigned? (bound : Nat) (l : List Char) : Option Nat :=
  let digits := match l with
    | '+' :: rest => rest
    | _ => l
  match digitsVal? digits with
  | some n => if n < bound then some n else none
  | none => none

/-- Rust `str::parse::<u16>` on the characters of a string. -/
def parseU16? (l : List Char) : Option Nat := parseUnsigned? 65536 l

/-- Outcome of the year-parsing block of `FwPage::scrape_from_page`
(`src/lib.rs` 268-295): a parsed `Year`, a returned `FwErrors`, or a Rust
panic (the `.expect` on an unparseable start of a year range). -/
inductive YearOutcome
  | ok (y : Year)
  | err (e : FwErrors)
  | panicked (msg : String)
  deriving DecidableEq, Repr

/-- The year-parsing block of `FwPage::scrape_from_page` (`src/lib.rs`
268-295), as a function of the record id and the raw year string: a string
containing a dash is split and parsed as a range (an unparseable end
falls back to the start year, an unparseable start panics via `.expect`);
otherwise a plain year is parsed, and failure returns
`FwErrors::InvalidYear` carrying the record id and the failing string. -/
def parse_year (title_id : Nat) (year : String) : YearOutcome :=
  if year.data.contains ('-') then
    let years := splitOnChar (trimChars year.data) ('-')
    match parseU16? (trimChars (years.getD 0 [])) with
    | none => .panicked ("Failed to parse a year from a serial votebox")
    | some year_start =>
      let year_end := (parseU16? (trimChars (years.getD 1 []))).getD year_start
      .ok (.Range year_start year_end)
  else
    match parseU16? (trimChars year.data) with
    | some y => .ok (.OneYear y)
    | none => .err (.InvalidYear title_id year)

/-- Prefix test on character lists (helper for the substring test). -/
def isPrefixB : List Char → List Char → Bool
  | [], _ => true
  | _ :: _, [] => false
  | p :: ps, c :: cs => p == c && isPrefixB ps cs

/-- Substring occurrence test on character lists. -/
def containsB (pat : List Char) : List Char → Bool
  | [] => pat.isEmpty
  | c :: cs => isPrefixB pat (c :: cs) || containsB pat cs

/-- Rust `str::contains(pat)` for a string pattern: substring test.
UTF-8 byte-level search for a valid pattern can only match at character
boundaries, so it coincides with the code-point-level search embedded
here. -/
def strContains (s pat : String) : Bool := containsB pat.data s.data

/-- `AlternateTitle::score_title` (`src/lib.rs` 701-717): scores a locale
label by a first-match-wins substring table; `u8::MIN` is `0`. -/
def score_title (language : String) : Nat :=
  if strContains language ("USA") || strContains language ("angielski") then 10
  else if strContains language ("oryginalny") then 9
  else if strContains language ("główny") then 8
  else if strContains language ("alternatywna pisownia") then 7
  else if strContains language ("inny tytuł") then 6
  else if strContains language ("Polska") then 5
  else 0

/-- The specification's marker table for alternate-title scoring
(spec 4.1), as an ordered list of marker predicates with their scores;
first match wins, no match scores the floor 0. -/
def marker_table : List ((String → Bool) × Nat) :=
  [ (fun l => strContains l ("USA") || strContains l ("angielski"), 10),
    (fun l => strContains l ("oryginalny"), 9),
    (fun l => strContains l ("główny"), 8),
    (fun l => strContains l ("alternatywna pisownia"), 7),
    (fun l => strContains l ("inny tytuł"), 6),
    (fun l => strContains l ("Polska"), 5) ]

/-- First-match-wins lookup over the specification's marker table. -/
def table_score (l : String) : Nat :=
  match marker_table.find? (fun p => p.1 l) with
  | some p => p.2
  | none => 0

/-- Decision of the interactive review gate in `main`
(`src/main.rs` 107-132). -/
inductive ReviewAction
  | exported
  | dropped
  deriving DecidableEq, Repr

/-- The review gate of `main` (`src/main.rs` 107-132) as a function of the
single line read from standard input: an answer equal to "y" after
`trim`/`to_lowercase` exports the record, any other answer clears
`imdb_data` (the record is dropped to not-found).  The source reads one
line per record and never re-prompts.  Rust `to_lowercase` and
`Char.toLower` agree on ASCII input, which is all a yes/no prompt
receives. -/
def review_gate (decision : String) : ReviewAction :=
  if (trimChars decision.data).map Char.toLower = ("y").data then .exported
  else .dropped

/-- `FwTitleType` (`src/lib.rs` 15-20). -/
inductive FwTitleType
  | Film
  | Serial
  | WantsToSee
  deriving DecidableEq, Repr

/-- `FwPageNumber` (`src/lib.rs` 22-27); the page number is a `u8`. -/
inductive FwPageNumber
  | Films (page : Nat)
  | Serials (page : Nat)
  | WantsToSee (page : Nat)
  deriving DecidableEq, Repr

/-- `IMDbApiDetails` (`src/lib.rs` 106-111): a match candidate from the
external database; `duration` is a `u32` number of minutes. -/
structure IMDbApiDetails where
  title : String
  id : String
  duration : Nat
  deriving DecidableEq, Repr

/-- `FwApiDetails` (`src/lib.rs` 97-104): the user's vote for one title. -/
structure FwApiDetails where
  rate : Nat
  favorite : Bool
  view_date : Nat
  timestamp : Nat
  deriving DecidableEq, Repr

/-- `AlternateTitle` (`src/lib.rs` 126-130). -/
structure AlternateTitle where
  language : String
  title : String
  deriving DecidableEq, Repr

/-- `FwRatedTitle` (`src/lib.rs` 113-124).  The
`PriorityQueue<AlternateTitle, u8>` is embedded as its pop-order list:
entries in descending score order, each paired with its score (ties keep
insertion order; the source container leaves tie order unspecified and no
claim depends on it). -/
structure FwRatedTitle where
  fw_url : String
  fw_id : Nat
  fw_title_pl : String
  fw_alter_titles : Option (List (AlternateTitle × Nat))
  title_type : FwTitleType
  fw_duration : Option Nat
  year : Year
  rating : Option FwApiDetails
  imdb_data : Option IMDbApiDetails
  deriving DecidableEq, Repr

/-- Insertion into the descending pop-order list embedding of the
priority queue: a new entry goes in front of the first strictly smaller
score (helper for `fw_get_titles`). -/
def pqInsert (x : AlternateTitle × Nat) : List (AlternateTitle × Nat) → List (AlternateTitle × Nat)
  | [] => [x]
  | y :: ys => if y.2 < x.2 then x :: y :: ys else y :: pqInsert x ys

/-- `AlternateTitle::fw_get_titles` (`src/lib.rs` 719-737) minus the HTTP
fetch: from the scraped (title text, locale label) pairs of the alternate
titles page, push each `AlternateTitle` into the priority queue with the
score given by `score_title` on its label. -/
def fw_get_titles (pairs : List (String × String)) : List (AlternateTitle × Nat) :=
  pairs.foldl (fun q p => pqInsert (⟨p.2, p.1⟩, score_title p.2) q) []

/-- `FwRatedTitle::is_duration_ok` (`src/lib.rs` 380-404).  Reads the
candidate duration from `imdb_data` (absent: `false`) and the source
duration from `fw_duration` (absent: `true`); computes the pair
`(upper, lower)` from the band multipliers, wide when both durations are
at most 60 minutes, tight otherwise; and returns `false` exactly when
both `upper >= fw_duration` and `lower >= fw_duration` hold — the
comparison written in the source.  (`true` means the match is accepted
and exported; `false` sends it to the interactive review.) -/
def is_duration_ok (t : FwRatedTitle) : Bool :=
  match t.imdb_data with
  | none => false
  | some imdb_api =>
    match t.fw_duration with
    | none => true
    | some fw_duration =>
      let imdb_duration : ℚ := (imdb_api.duration : ℚ)
      let ul : ℚ × ℚ :=
        if imdb_duration ≤ 60 ∧ fw_duration ≤ 60 then
          (imdb_duration * 1.50, imdb_duration * 0.75)
        else
          (imdb_duration * 1.15, imdb_duration * 0.85)
      if ul.1 ≥ (fw_duration : ℚ) ∧ ul.2 ≥ (fw_duration : ℚ) then false
      else true

/-- Confidence verdict of the duration corroborator as the specification
words it. -/
inductive Confidence
  | Confirmed
  | NeedsReview
  deriving DecidableEq, Repr

/-- The duration-corroboration policy exactly as the specification words
it (spec 4.4, restricted to a present candidate duration): absent source
duration is `Confirmed`; otherwise `Confirmed` exactly when the source
duration falls within the inclusive tolerance band around the candidate
duration, the band being wide when both durations are at most 60 minutes
and tight otherwise. -/
def classify_spec (sourceDuration : Option Nat) (candidateDuration : Nat) : Confidence :=
  match sourceDuration with
  | none => .Confirmed
  | some src =>
    let c : ℚ := (candidateDuration : ℚ)
    let band : ℚ × ℚ :=
      if c ≤ 60 ∧ src ≤ 60 then (c * 0.75, c * 1.50) else (c * 0.85, c * 1.15)
    if band.1 ≤ (src : ℚ) ∧ (src : ℚ) ≤ band.2 then .Confirmed else .NeedsReview

/-- The strategy-fallback loop of `FwRatedTitle::get_imdb_data_logic`
(`src/lib.rs` 406-428), as a function of the two strategy calls and the
pop-order content of `self.fw_alter_titles`.  The record's single lookup
year is already applied inside the two oracles (`adv` is
`get_imdb_data_advanced` with `year_start = year_end = year`, `ex` is
`get_imdb_data`; a strategy miss of any kind is `none`).  Popping an
entry with the floor score `u8::MIN = 0` breaks the loop; otherwise the
inner `for i in 1..=2` loop tries `adv` then `ex`, and the first success
is assigned to `imdb_data` and ends the whole search.  An exhausted queue
leaves `imdb_data` absent. -/
def get_imdb_data_logic (adv ex : String → Option IMDbApiDetails) :
    List (AlternateTitle × Nat) → Option IMDbApiDetails
  | [] => none
  | (t, score) :: rest =>
    if score = 0 then none
    else
      match adv t.title with
      | some d => some d
      | none =>
        match ex t.title with
        | some d => some d
        | none => get_imdb_data_logic adv ex rest

/-- The same loop as `get_imdb_data_logic`, instrumented to return the
list of titles on which at least one strategy call was made, in the order
the loop makes them. -/
def attempted_titles (adv ex : String → Option IMDbApiDetails) :
    List (AlternateTitle × Nat) → List String
  | [] => []
  | (t, score) :: rest =>
    if score = 0 then []
    else
      match adv t.title with
      | some _ => [t.title]
      | none =>
        match ex t.title with
        | some _ => [t.title]
        | none => t.title :: attempted_titles adv ex rest

/-- Number of queue entries the loop of `get_imdb_data_logic` pops and
attempts before stopping. -/
def attempt_count (adv ex : String → Option IMDbApiDetails) :
    List (AlternateTitle × Nat) → Nat
  | [] => 0
  | (t, score) :: rest =>
    if score = 0 then 0
    else
      match adv t.title with
      | some _ => 1
      | none =>
        match ex t.title with
        | some _ => 1
        | none => attempt_count adv ex rest + 1

/-- Year collapse used by `get_imdb_data_logic` and `export_csv`
(`src/lib.rs` 407-409 and 610-612): a range contributes its first year. -/
def record_year : Year → Nat
  | .OneYear y => y
  | .Range y _ => y

/-- The three CSV sinks of `ExportFiles` (`src/lib.rs` 138-143), each
embedded as the list of rows written to it. -/
structure ExportFiles where
  generic : List (List String)
  want2see : List (List String)
  favorited : List (List String)
  deriving DecidableEq, Repr

/-- The 13-column row built by `FwRatedTitle::export_csv` (`src/lib.rs`
589-628): field 0 is the IMDb id (or "not-found"), field 1 the rating (or
"no.vote"), field 3 the title (the highest-priority alternate title if
the queue is present and non-empty, else the Polish title), field 9 the
record's first year; the rest stay empty. -/
def csv_fields (t : FwRatedTitle) : List String :=
  let title := match t.fw_alter_titles with
    | none => t.fw_title_pl
    | some q =>
      match q.head? with
      | none => t.fw_title_pl
      | some alter_title => alter_title.1.title
  let rating := match t.rating with
    | none => ("no.vote")
    | some r => toString r.rate
  let imdb_id := match t.imdb_data with
    | some d => d.id
    | none => ("not-found")
  let year := toString (record_year t.year)
  [imdb_id, rating, (""), title, (""), (""), (""), (""), (""), year, (""), (""), ("")]

/-- The sink-routing tail of `FwRatedTitle::export_csv` (`src/lib.rs`
630-639): a favorited rating writes the row to the favorited sink, a
plain rating to the generic sink, an absent rating to the want2see
sink. -/
def export_csv (t : FwRatedTitle) (files : ExportFiles) : ExportFiles :=
  match t.rating with
  | some yes =>
    if yes.favorite then
      { files with favorited := files.favorited ++ [csv_fields t] }
    else
      { files with generic := files.generic ++ [csv_fields t] }
  | none => { files with want2see := files.want2see ++ [csv_fields t] }

/-- A record with a rating whose favorite flag is set (the favorited
bucket of the specification). -/
def is_favorited (t : FwRatedTitle) : Bool :=
  match t.rating with
  | some r => r.favorite
  | none => false

/-- A record with a rating whose favorite flag is clear (the generic
bucket of the specification). -/
def is_plain_rated (t : FwRatedTitle) : Bool :=
  match t.rating with
  | some r => !r.favorite
  | none => false

/-- A record with no rating (the watchlist bucket of the
specification). -/
def is_watchlist (t : FwRatedTitle) : Bool := t.rating.isNone

/-- Outcome of `FwPage::get_filmweb_page` (`src/lib.rs` 223-249) with the
HTTP send abstracted away: the URL that would be fetched, or a panic. -/
inductive PageFetchOutcome
  | fetch (url : String)
  | panicked (msg : String)
  deriving DecidableEq, Repr

/-- Whether a page-fetch outcome is the panic branch. -/
def PageFetchOutcome.isPanic : PageFetchOutcome → Bool
  | .fetch _ => false
  | .panicked _ => true

/-- `FwPage::get_filmweb_page` (`src/lib.rs` 223-249), called by
`FwPage::new`: each match arm is guarded by `page != 0` and builds the
category's listing URL; a page number 0 falls through every guard to the
`panic` arm. -/
def get_filmweb_page (username : String) : FwPageNumber → PageFetchOutcome
  | .Films page =>
    if page ≠ 0 then
      .fetch (("https://www.filmweb.pl/user/") ++ username ++ ("/films?page=") ++ toString page)
    else .panicked ("Page cannot be 0")
  | .Serials page =>
    if page ≠ 0 then
      .fetch (("https://www.filmweb.pl/user/") ++ username ++ ("/serials?page=") ++ toString page)
    else .panicked ("Page cannot be 0")
  | .WantsToSee page =>
    if page ≠ 0 then
      .fetch (("https://www.filmweb.pl/user/") ++ username ++ ("/wantToSee?page=") ++ toString page)
    else .panicked ("Page cannot be 0")

/-- Rust `str::parse::<u32>` on the characters of a string. -/
def parseU32? (l : List Char) : Option Nat := parseUnsigned? 4294967296 l

/-- Splitting at whitespace like Rust `str::split_whitespace`, dropping
empty chunks (helper, with accumulator for the current word). -/
def splitWsAux : List Char → List Char → List (List Char)
  | [], acc => if acc.isEmpty then [] else [acc.reverse]
  | c :: cs, acc =>
    if c.isWhitespace then
      if acc.isEmpty then splitWsAux cs [] else acc.reverse :: splitWsAux cs []
    else splitWsAux cs (c :: acc)

/-- Rust `str::split_whitespace` on a character list. -/
def splitWs (l : List Char) : List (List Char) := splitWsAux l []

/-- Replacement of every non-overlapping occurrence of `pat` (non-empty)
by `rep`, left to right, like Rust `str::replace` (helper).  The first
argument is fuel bounding the number of consumed characters; every step
consumes at least one character, so fuel equal to the list length makes
the `0` arm dead. -/
def replaceGo (pat rep : List Char) : Nat → List Char → List Char
  | _, [] => []
  | 0, l => l
  | Nat.succ fuel, c :: cs =>
    if isPrefixB pat (c :: cs) then
      rep ++ replaceGo pat rep fuel (List.drop (pat.length - 1) cs)
    else c :: replaceGo pat rep fuel cs

/-- Rust `str::replace` for a non-empty pattern, on character lists. -/
def replaceChars (l pat rep : List Char) : List Char :=
  replaceGo pat rep l.length l

/-- UTF-8 byte length of a character list, like Rust `str::len`. -/
def utf8Len (l : List Char) : Nat := l.foldl (fun n c => n + c.utf8Size) 0

/-- The numeric tokens of an IMDb metadata slot (`src/lib.rs` 560-564):
replace every "<!-- -->" by a space, split at whitespace, and keep the
tokens that parse as `u32`. -/
def duration_tokens (dirty : String) : List Nat :=
  (splitWs (replaceChars dirty.data ("<!-- -->").data (" ").data)).filterMap parseU32?

/-- Outcome of the duration extraction of `FwRatedTitle::get_imdb_data`:
a number of minutes, the typed `InvalidDuration` miss, or a Rust panic. -/
inductive DurationOutcome
  | ok (minutes : Nat)
  | invalidDuration
  | panicked
  deriving DecidableEq, Repr

/-- The duration extraction of `FwRatedTitle::get_imdb_data`
(`src/lib.rs` 553-570), as a function of the already-selected metadata
slot string (`dirty_duration`, after the content-rating slot shift of
lines 548-551): a slot longer than 40 bytes fails with
`InvalidDuration`; otherwise two or more numeric tokens resolve as
hours/minutes `h*60 + m` (a `u32` product, hence the wrap), one numeric
token is minutes directly, and zero numeric tokens hit the out-of-bounds
index `dirty_duration[0]`, a panic. -/
def parse_duration (dirty : String) : DurationOutcome :=
  if utf8Len dirty.data > 40 then .invalidDuration
  else
    let tokens := duration_tokens dirty
    if 2 ≤ tokens.length then
      .ok ((tokens.getD 0 0 * 60 + tokens.getD 1 0) % 4294967296)
    else
      match tokens with
      | [t] => .ok t
      | _ => .panicked

/-- One `div.myVoteBox` of a listing page as `FwPage::scrape_from_page`
(`src/lib.rs` 251-375) consumes it, with the per-record network responses
inlined: the already-extracted `data-film-id` (the `u32` id; the id-parse
failure path is not modelled, no claim touches it), the raw year string,
the Polish title, the title URL suffix, the body of the vote-details API
response (`none` when it fails to deserialize, which the source maps to
`InvalidJwt`; the field is unused on a wants-to-see page), the
`data-duration` attribute already parsed as `u16`, and the (title, locale
label) pairs of the alternate-titles page. -/
structure RawVotebox where
  title_id : Nat
  year_str : String
  title_pl : String
  url_suffix : String
  api_json : Option (Option FwApiDetails)
  duration_attr : Option Nat
  alter_pairs : List (String × String)
  deriving DecidableEq, Repr

/-- The rating block of `FwPage::scrape_from_page` (`src/lib.rs`
316-345): a wants-to-see page makes no API call and has no rating; the
other page types take the API response body, and a body that does not
deserialize aborts the record scrape with `FwErrors::InvalidJwt`. -/
def scrape_rating (page_type : FwTitleType) (v : RawVotebox) : Except FwErrors (Option FwApiDetails) :=
  match page_type with
  | .WantsToSee => .ok none
  | _ =>
    match v.api_json with
    | some parsed => .ok parsed
    | none => .error .InvalidJwt

/-- The `FwRatedTitle` pushed by `FwPage::scrape_from_page` for one
votebox (`src/lib.rs` 362-372). -/
def mk_scraped_title (page_type : FwTitleType) (v : RawVotebox) (year : Year)
    (rating : Option FwApiDetails) : FwRatedTitle :=
  { fw_url := ("https://filmweb.pl") ++ v.url_suffix
    fw_id := v.title_id
    fw_title_pl := v.title_pl
    fw_alter_titles := some (fw_get_titles v.alter_pairs)
    title_type := page_type
    fw_duration := v.duration_attr
    year := year
    rating := rating
    imdb_data := none }

/-- Outcome of `FwPage::scrape_from_page` over a whole page: the scraped
titles, a returned `FwErrors`, or a Rust panic. -/
inductive ScrapeOutcome
  | ok (titles : List FwRatedTitle)
  | err (e : FwErrors)
  | panicked (msg : String)
  deriving DecidableEq, Repr

/-- The votebox loop of `FwPage::scrape_from_page` (`src/lib.rs`
251-375): records are processed in page order; for each, the year is
parsed first (an `InvalidYear` error or a panic aborts the whole page
scrape at that record — the record is not skipped), then the rating block
runs (its `InvalidJwt` likewise aborts), and the scraped title is pushed. -/
def scrape_records (page_type : FwTitleType) : List RawVotebox → ScrapeOutcome
  | [] => .ok []
  | v :: rest =>
    match parse_year v.title_id v.year_str with
    | .panicked m => .panicked m
    | .err e => .err e
    | .ok year =>
      match scrape_rating page_type v with
      | .error e => .err e
      | .ok rating =>
        match scrape_records page_type rest with
        | .ok ts => .ok (mk_scraped_title page_type v year rating :: ts)
        | out => out

/-- Outcome of one Stage-A scrape worker in `scrape_fw` (`src/main.rs`
192-229): the page is sent down the channel, or the process exits with
status 1, or a thread panic. -/
inductive WorkerOutcome
  | sent (titles : List FwRatedTitle)
  | exit1
  | panicked
  deriving DecidableEq, Repr

/-- One Stage-A scrape worker of `scrape_fw` (`src/main.rs` 196-228):
on a successful scrape the page is sent to Stage B; an `InvalidJwt`
error prints a remediation message and calls `std::process::exit(1)`;
an `InvalidYear` error prints the record id and the failing string and
likewise calls `std::process::exit(1)`; the remaining error variants
are `unreachable!()` (a panic), and a panic inside the scrape stays a
panic. -/
def scrape_worker (page_type : FwTitleType) (vs : List RawVotebox) : WorkerOutcome :=
  match scrape_records page_type vs with
  | .ok ts => .sent ts
  | .err .InvalidJwt => .exit1
  | .err (.InvalidYear _ _) => .exit1
  | .err _ => .panicked
  | .panicked _ => .panicked

/-- A concrete rated title whose source duration is 200 minutes and whose
found candidate's duration is 100 minutes (both above 60, so the tight
band applies). -/
def bug_title : FwRatedTitle :=
  ⟨("https://filmweb.pl/film/T"), 1, ("T"), none, .Film, some 200, .OneYear 2000, none,
    some ⟨("T"), ("0123456"), 100⟩⟩

/-- The same title with the source duration absent. -/
def no_source_duration_title : FwRatedTitle := { bug_title with fw_duration := none }

/-- C1: the code evaluated at the claim's own example diverges from the
band policy.  With source duration 200 and candidate duration 100 the
tight band is [85, 115] and the claim (and the comment in the source)
requires NeedsReview, but `is_duration_ok` returns `true` (accept and
export): its final comparison `upper >= fw && lower >= fw` only detects a
source duration at or below the lower edge and accepts everything above
the upper edge.  The absent-source-duration part of the claim does hold
(`true`, i.e. Confirmed). -/
theorem duration_band_code_bug :
    is_duration_ok bug_title = true
    ∧ classify_spec (some 200) 100 = .NeedsReview
    ∧ is_duration_ok no_source_duration_title = true
    ∧ classify_spec none 100 = .Confirmed := by
  refine ⟨?_, ?_, ?_, ?_⟩
  · norm_num [is_duration_ok, bug_title]
  · norm_num [classify_spec]
  · norm_num [is_duration_ok, no_source_duration_title, bug_title]
  · norm_num [classify_spec]

/-- C8: year parsing maps "2015-2019" to the range (2015, 2019), maps
"2015-" (unparseable end) to the range (2015, 2015), and maps "abc" to a
returned `InvalidYear` error referencing the failing record's id and the
failing string, for every record id. -/
theorem year_parsing_examples : ∀ title_id : Nat,
    parse_year title_id ("2015-2019") = .ok (.Range 2015 2019)
    ∧ parse_year title_id ("2015-") = .ok (.Range 2015 2015)
    ∧ parse_year title_id ("abc") = .err (.InvalidYear title_id ("abc")) := by
  intro title_id
  exact ⟨rfl, rfl, rfl⟩

/-- C3 counterexample: the claim says a "yes" answer promotes the record
and that invalid input is re-prompted; in the code the only accepting
answer is "y" (after trim and lowercasing), a single line is read with no
re-prompt loop, and the literal answer "yes" therefore drops the record's
match (`imdb_data` is cleared) instead of exporting it. -/
theorem review_gate_yes_not_promoted : review_gate ("yes") = .dropped := by decide

/-- C3 amended: the review gate reads exactly one answer and never
re-prompts; the record is exported precisely when the answer equals "y"
after trimming and ASCII lowercasing, and every other answer — including
"yes", the empty answer and arbitrary invalid input — drops the record's
match to not-found. -/
theorem review_gate_single_read : ∀ s : String,
    (review_gate s = .exported ↔ (trimChars s.data).map Char.toLower = ("y").data)
    ∧ review_gate ("y") = .exported
    ∧ review_gate ("Y") = .exported
    ∧ review_gate ("") = .dropped
    ∧ review_gate ("n") = .dropped
    ∧ review_gate ("maybe") = .dropped := by
  intro s
  refine ⟨?_, by decide, by decide, by decide, by decide, by decide⟩
  by_cases h : (trimChars s.data).map Char.toLower = ("y").data <;> simp [review_gate, h]

/-- Witness for the amended review-gate theorem at the concrete answer
" y ". -/
theorem review_gate_single_read_witness : review_gate (" y ") = .exported :=
  (review_gate_single_read (" y ")).1.mpr (by decide)

/-- C10: requesting page 0 of any of the three categories hits the
fall-through match arm and panics with "Page cannot be 0" instead of
returning a typed error, and for every page number at least 1 the guard
`page != 0` succeeds, so the panic branch is unreachable. -/
theorem page_zero_panics : ∀ (u : String) (p : Nat),
    get_filmweb_page u (.Films 0) = .panicked ("Page cannot be 0")
    ∧ get_filmweb_page u (.Serials 0) = .panicked ("Page cannot be 0")
    ∧ get_filmweb_page u (.WantsToSee 0) = .panicked ("Page cannot be 0")
    ∧ (1 ≤ p →
        (get_filmweb_page u (.Films p)).isPanic = false
        ∧ (get_filmweb_page u (.Serials p)).isPanic = false
        ∧ (get_filmweb_page u (.WantsToSee p)).isPanic = false) := by
  intro u p
  refine ⟨rfl, rfl, rfl, fun hp => ?_⟩
  have hp0 : p ≠ 0 := by omega
  simp [get_filmweb_page, hp0, PageFetchOutcome.isPanic]

/-- Witness for the page-number theorem at user "alice" and page 1. -/
theorem page_zero_panics_witness :
    (get_filmweb_page ("alice") (.Films 1)).isPanic = false
    ∧ (get_filmweb_page ("alice") (.Serials 1)).isPanic = false
    ∧ (get_filmweb_page ("alice") (.WantsToSee 1)).isPanic = false :=
  (page_zero_panics ("alice") 1).2.2.2 (by decide)

/-- A candidate returned for the title text "Bar" by both strategies. -/
def bar_details : IMDbApiDetails := ⟨("Bar"), ("0000001"), 100⟩

/-- Strategy oracle that succeeds exactly on the title text "Bar". -/
def bar_oracle : String → Option IMDbApiDetails :=
  fun title => if title = ("Bar") then some bar_details else none

/-- C4 counterexample: the candidate queue is not built from the
canonical title plus the alternate titles — it contains only the scraped
alternate titles.  For a record whose canonical (Polish) title is "Bar"
with a single scraped alternate title "Foo" under a "USA" label, the
queue built by the scrape is exactly ["Foo"], and a search whose two
strategies would both succeed on "Bar" still ends with no match, because
the canonical title is never attempted. -/
theorem canonical_title_not_in_queue :
    (fw_get_titles [(("Foo"), ("USA"))]).map (fun p => p.1.title) = [("Foo")]
    ∧ get_imdb_data_logic bar_oracle bar_oracle (fw_get_titles [(("Foo"), ("USA"))]) = none :=
  ⟨by decide, by decide⟩

/-- C4 amended: the record linker pops the scraped alternate-title queue
(the canonical title is not enqueued); for each popped entry with a
non-floor score it attempts BroadSearch (`get_imdb_data_advanced`) first
and ExactSearch (`get_imdb_data`) second, the first success ending the
search with that candidate; a popped entry failing both strategies
advances to the rest of the queue; and an exhausted queue — or a queue
whose every entry fails both strategies — leaves the match absent
(NotFound). -/
theorem record_linker_fallback_order :
    ∀ (adv ex : String → Option IMDbApiDetails) (t : AlternateTitle) (s : Nat)
      (rest : List (AlternateTitle × Nat)),
    get_imdb_data_logic adv ex [] = none
    ∧ (∀ d, s ≠ 0 → adv t.title = some d →
        get_imdb_data_logic adv ex ((t, s) :: rest) = some d)
    ∧ (∀ d, s ≠ 0 → adv t.title = none → ex t.title = some d →
        get_imdb_data_logic adv ex ((t, s) :: rest) = some d)
    ∧ (s ≠ 0 → adv t.title = none → ex t.title = none →
        get_imdb_data_logic adv ex ((t, s) :: rest) = get_imdb_data_logic adv ex rest)
    ∧ (∀ qs : List (AlternateTitle × Nat),
        (∀ p ∈ qs, adv p.1.title = none ∧ ex p.1.title = none) →
        get_imdb_data_logic adv ex qs = none) := by
  intro adv ex t s rest
  refine ⟨rfl, ?_, ?_, ?_, ?_⟩
  · intro d hs ha
    simp [get_imdb_data_logic, hs, ha]
  · intro d hs ha he
    simp [get_imdb_data_logic, hs, ha, he]
  · intro hs ha he
    simp [get_imdb_data_logic, hs, ha, he]
  · intro qs hqs
    induction qs with
    | nil => rfl
    | cons p ps ih =>
      rcases p with ⟨pt, pscore⟩
      obtain ⟨hpa, hpe⟩ := hqs ⟨pt, pscore⟩ (by simp)
      have hrest : ∀ q ∈ ps, adv q.1.title = none ∧ ex q.1.title = none :=
        fun q hq => hqs q (by simp [hq])
      by_cases h0 : pscore = 0
      · simp [get_imdb_data_logic, h0]
      · simp [get_imdb_data_logic, h0, hpa, hpe, ih hrest]

/-- Strategy oracle standing for BroadSearch, succeeding exactly on the
title text "A". -/
def adv_oracle : String → Option IMDbApiDetails :=
  fun title => if title = ("A") then some ⟨("A"), ("0000002"), 100⟩ else none

/-- Strategy oracle standing for ExactSearch, succeeding exactly on the
title text "B". -/
def ex_oracle : String → Option IMDbApiDetails :=
  fun title => if title = ("B") then some ⟨("B"), ("0000003"), 90⟩ else none

/-- Witness for the record-linker fallback theorem on three concrete
one-entry queues: BroadSearch success, ExactSearch-only success, and a
queue that exhausts without success. -/
theorem record_linker_fallback_order_witness :
    get_imdb_data_logic adv_oracle ex_oracle [(⟨("lang"), ("A")⟩, 9)]
      = some ⟨("A"), ("0000002"), 100⟩
    ∧ get_imdb_data_logic adv_oracle ex_oracle [(⟨("lang"), ("B")⟩, 8)]
      = some ⟨("B"), ("0000003"), 90⟩
    ∧ get_imdb_data_logic adv_oracle ex_oracle [(⟨("lang"), ("C")⟩, 7)] = none := by
  refine ⟨?_, ?_, ?_⟩
  · exact (record_linker_fallback_order adv_oracle ex_oracle ⟨("lang"), ("A")⟩ 9 []).2.1
      _ (by decide) (by decide)
  · exact (record_linker_fallback_order adv_oracle ex_oracle ⟨("lang"), ("B")⟩ 8 []).2.2.1
      _ (by decide) (by decide) (by decide)
  · exact (record_linker_fallback_order adv_oracle ex_oracle ⟨("lang"), ("C")⟩ 7 []).2.2.2.2
      [(⟨("lang"), ("C")⟩, 7)] (by decide)

/-- The attempted titles are the titles of the first `attempt_count`
queue entries, and every attempted entry has a non-floor score (helper
for the attempt-order theorem). -/
theorem attempted_titles_eq_take (adv ex : String → Option IMDbApiDetails) :
    ∀ qs : List (AlternateTitle × Nat),
    attempted_titles adv ex qs
      = (qs.take (attempt_count adv ex qs)).map (fun p => p.1.title)
    ∧ (qs.take (attempt_count adv ex qs)).all (fun p => p.2 != 0) = true := by
  intro qs
  induction qs with
  | nil => exact ⟨rfl, rfl⟩
  | cons p ps ih =>
    rcases p with ⟨t, score⟩
    by_cases h0 : score = 0
    · simp [attempted_titles, attempt_count, h0]
    · rcases ha : adv t.title with _ | d
      · rcases he : ex t.title with _ | d
        · simp [attempted_titles, attempt_count, h0, ha, he, ih.1, ih.2]
        · simp [attempted_titles, attempt_count, h0, ha, he]
      · simp [attempted_titles, attempt_count, h0, ha]

/-- Popping a floor-score entry stops the whole search: everything after
it — and the floor entry itself — contributes neither attempts nor a
result (helper for the attempt-order theorem). -/
theorem floor_score_stops_search (adv ex : String → Option IMDbApiDetails) :
    ∀ (pre post : List (AlternateTitle × Nat)) (t0 : AlternateTitle),
    (∀ p ∈ pre, p.2 ≠ 0) →
    attempted_titles adv ex (pre ++ (t0, 0) :: post) = attempted_titles adv ex pre
    ∧ get_imdb_data_logic adv ex (pre ++ (t0, 0) :: post)
        = get_imdb_data_logic adv ex pre := by
  intro pre post t0
  induction pre with
  | nil =>
    intro _
    exact ⟨by simp [attempted_titles], by simp [get_imdb_data_logic]⟩
  | cons p ps ih =>
    intro hpre
    rcases p with ⟨t, score⟩
    have hs : score ≠ 0 := hpre ⟨t, score⟩ (by simp)
    have step := ih (fun q hq => hpre q (by simp [hq]))
    rcases ha : adv t.title with _ | d
    · rcases he : ex t.title with _ | d
      · exact ⟨by simp [attempted_titles, hs, ha, he, step.1],
          by simp [get_imdb_data_logic, hs, ha, he, step.2]⟩
      · exact ⟨by simp [attempted_titles, hs, ha, he],
          by simp [get_imdb_data_logic, hs, ha, he]⟩
    · exact ⟨by simp [attempted_titles, hs, ha],
        by simp [get_imdb_data_logic, hs, ha]⟩

/-- C5: when the pop order of the queue is strictly descending in score
(as a max-priority queue with distinct scores pops it), the attempted
titles are exactly the titles of an initial segment of that order — so
attempts happen in strictly descending score order — every attempted
entry has a non-floor score, and popping a floor-score (0) entry stops
the whole search for the record, attempting neither it nor anything
after it. -/
theorem attempt_order_strictly_descending :
    ∀ (adv ex : String → Option IMDbApiDetails)
      (qs pre post : List (AlternateTitle × Nat)) (t0 : AlternateTitle),
    List.Chain' (fun a b => b.2 < a.2) qs →
    (∀ p ∈ pre, p.2 ≠ 0) →
    (attempted_titles adv ex qs
        = (qs.take (attempt_count adv ex qs)).map (fun p => p.1.title)
      ∧ List.Chain' (fun a b => b.2 < a.2) (qs.take (attempt_count adv ex qs))
      ∧ (qs.take (attempt_count adv ex qs)).all (fun p => p.2 != 0) = true
      ∧ attempted_titles adv ex (pre ++ (t0, 0) :: post) = attempted_titles adv ex pre
      ∧ get_imdb_data_logic adv ex (pre ++ (t0, 0) :: post)
          = get_imdb_data_logic adv ex pre) := by
  intro adv ex qs pre post t0 hchain hpre
  obtain ⟨h1, h2⟩ := attempted_titles_eq_take adv ex qs
  obtain ⟨h3, h4⟩ := floor_score_stops_search adv ex pre post t0 hpre
  exact ⟨h1, hchain.take _, h2, h3, h4⟩

/-- Strategy oracle on which every lookup misses. -/
def none_oracle : String → Option IMDbApiDetails := fun _ => none

/-- The specification's example queue: alternate titles with scores
10, 9, 8, 7, 5 and a floor entry with score 0, in pop order. -/
def example_queue : List (AlternateTitle × Nat) :=
  [(⟨("lang10"), ("T10")⟩, 10), (⟨("lang9"), ("T9")⟩, 9), (⟨("lang8"), ("T8")⟩, 8),
   (⟨("lang7"), ("T7")⟩, 7), (⟨("lang5"), ("T5")⟩, 5), (⟨("lang0"), ("T0")⟩, 0)]

/-- The non-floor prefix used in the attempt-order witness. -/
def floor_pre : List (AlternateTitle × Nat) := [(⟨("lang10"), ("T10")⟩, 10)]

/-- Witness for the attempt-order theorem on the specification's example
queue with always-missing strategies. -/
theorem attempt_order_strictly_descending_witness :
    (attempted_titles none_oracle none_oracle example_queue
        = (example_queue.take (attempt_count none_oracle none_oracle example_queue)).map
            (fun p => p.1.title)
      ∧ List.Chain' (fun a b => b.2 < a.2)
          (example_queue.take (attempt_count none_oracle none_oracle example_queue))
      ∧ (example_queue.take (attempt_count none_oracle none_oracle example_queue)).all
          (fun p => p.2 != 0) = true
      ∧ attempted_titles none_oracle none_oracle (floor_pre ++ (⟨("lang0"), ("T0")⟩, 0) :: [])
          = attempted_titles none_oracle none_oracle floor_pre
      ∧ get_imdb_data_logic none_oracle none_oracle (floor_pre ++ (⟨("lang0"), ("T0")⟩, 0) :: [])
          = get_imdb_data_logic none_oracle none_oracle floor_pre) :=
  attempt_order_strictly_descending none_oracle none_oracle example_queue floor_pre []
    ⟨("lang0"), ("T0")⟩ (by norm_num [example_queue, List.chain'_cons]) (by decide)

/-- C6: the alternate-title scorer is total on label strings and agrees
everywhere with the specification's first-match-wins marker table; in
particular any label containing a "USA" or "angielski" (English) marker
scores 10, and any label matching none of the markers scores the floor
0. -/
theorem score_title_matches_marker_table : ∀ l : String,
    score_title l = table_score l
    ∧ ((strContains l ("USA") = true ∨ strContains l ("angielski") = true) →
        score_title l = 10)
    ∧ ((∀ p ∈ marker_table, p.1 l = false) → score_title l = 0) := by
  intro l
  refine ⟨?_, ?_, ?_⟩
  · simp only [score_title, table_score, marker_table]
    by_cases h1 : (strContains l ("USA") || strContains l ("angielski")) = true
    · simp [List.find?, h1]
    · rw [Bool.not_eq_true] at h1
      by_cases h2 : strContains l ("oryginalny") = true
      · simp [List.find?, h1, h2]
      · rw [Bool.not_eq_true] at h2
        by_cases h3 : strContains l ("główny") = true
        · simp [List.find?, h1, h2, h3]
        · rw [Bool.not_eq_true] at h3
          by_cases h4 : strContains l ("alternatywna pisownia") = true
          · simp [List.find?, h1, h2, h3, h4]
          · rw [Bool.not_eq_true] at h4
            by_cases h5 : strContains l ("inny tytuł") = true
            · simp [List.find?, h1, h2, h3, h4, h5]
            · rw [Bool.not_eq_true] at h5
              by_cases h6 : strContains l ("Polska") = true
              · simp [List.find?, h1, h2, h3, h4, h5, h6]
              · rw [Bool.not_eq_true] at h6
                simp [List.find?, h1, h2, h3, h4, h5, h6]
  · intro hor
    rcases hor with h | h <;> simp [score_title, h]
  · intro hall
    have hlist := by simpa only [marker_table, List.forall_mem_cons] using hall
    obtain ⟨a1, a2, a3, a4, a5, a6, -⟩ := hlist
    simp [score_title, a1, a2, a3, a4, a5, a6]

/-- Witness for the scorer theorem at the labels "USA" (an English
marker) and "Chiński" (no marker). -/
theorem score_title_matches_marker_table_witness :
    score_title ("USA") = 10 ∧ score_title ("Chiński") = 0 :=
  ⟨(score_title_matches_marker_table ("USA")).2.1 (Or.inl (by decide)),
   (score_title_matches_marker_table ("Chiński")).2.2 (by decide)⟩

/-- C7 counterexample: the metadata slot "abc" is 3 bytes long and
yields zero numeric tokens, so it is inside the claim's "does not parse
to one or two numeric tokens" case, yet the extraction panics on the
out-of-bounds index `dirty_duration[0]` instead of failing with
`InvalidDuration` (which the code only returns for slots longer than 40
bytes). -/
theorem duration_zero_tokens_panic :
    duration_tokens ("abc") = [] ∧ parse_duration ("abc") = .panicked :=
  ⟨by decide, by decide⟩

/-- C7 amended: a slot longer than 40 bytes fails with
`InvalidDuration`; otherwise two or more numeric tokens resolve as
hours/minutes `h*60 + m` (with the `u32` wrap, and any further tokens
ignored), a single numeric token is minutes directly, and zero numeric
tokens panic on an out-of-bounds index rather than failing with
`InvalidDuration`. -/
theorem duration_parse_semantics : ∀ dirty : String,
    (utf8Len dirty.data > 40 → parse_duration dirty = .invalidDuration)
    ∧ (utf8Len dirty.data ≤ 40 → ∀ h m rest, duration_tokens dirty = h :: m :: rest →
        parse_duration dirty = .ok ((h * 60 + m) % 4294967296))
    ∧ (utf8Len dirty.data ≤ 40 → ∀ mins, duration_tokens dirty = [mins] →
        parse_duration dirty = .ok mins)
    ∧ (utf8Len dirty.data ≤ 40 → duration_tokens dirty = [] →
        parse_duration dirty = .panicked) := by
  intro dirty
  refine ⟨?_, ?_, ?_, ?_⟩
  · intro h40
    simp only [parse_duration]
    rw [if_pos h40]
  · intro h40 h m rest htok
    simp only [parse_duration]
    rw [if_neg (by omega)]
    simp only [htok]
    rw [if_pos (by simp)]
    simp [List.getD]
  · intro h40 mins htok
    simp only [parse_duration]
    rw [if_neg (by omega)]
    simp only [htok]
    rw [if_neg (by simp)]
  · intro h40 htok
    simp only [parse_duration]
    rw [if_neg (by omega)]
    simp only [htok]
    rw [if_neg (by simp)]

/-- Witness for the duration-extraction theorem at four concrete slots:
a real two-token IMDb slot, a one-token slot, a zero-token slot, and a
41-byte slot. -/
theorem duration_parse_semantics_witness :
    parse_duration ("1<!-- -->h<!-- --> <!-- -->33<!-- -->m")
      = .ok ((1 * 60 + 33) % 4294967296)
    ∧ parse_duration ("90") = .ok 90
    ∧ parse_duration ("xyz") = .panicked
    ∧ parse_duration ("aaaaaaaaaaaaaaaaaaaaaaaaaaaaaaaaaaaaaaaaa") = .invalidDuration := by
  refine ⟨?_, ?_, ?_, ?_⟩
  · exact (duration_parse_semantics ("1<!-- -->h<!-- --> <!-- -->33<!-- -->m")).2.1
      (by decide) 1 33 [] (by decide)
  · exact (duration_parse_semantics ("90")).2.2.1 (by decide) 90 (by decide)
  · exact (duration_parse_semantics ("xyz")).2.2.2 (by decide) (by decide)
  · exact (duration_parse_semantics ("aaaaaaaaaaaaaaaaaaaaaaaaaaaaaaaaaaaaaaaaa")).1 (by decide)

/-- C9: `export_csv` writes every record's row to exactly one sink, and
the sink is determined by the three-way bucket classification: a rating
with the favorite flag set goes to the favorited sink, a rating with the
flag clear to the generic sink, and an absent rating to the want2see
sink. -/
theorem export_csv_three_buckets : ∀ (t : FwRatedTitle) (files : ExportFiles),
    (export_csv t files).favorited
      = files.favorited ++ (if is_favorited t then [csv_fields t] else [])
    ∧ (export_csv t files).generic
      = files.generic ++ (if is_plain_rated t then [csv_fields t] else [])
    ∧ (export_csv t files).want2see
      = files.want2see ++ (if is_watchlist t then [csv_fields t] else [])
    ∧ ((if is_favorited t then 1 else 0) + (if is_plain_rated t then 1 else 0)
        + (if is_watchlist t then 1 else 0) = 1) := by
  intro t files
  rcases ht : t.rating with _ | r
  · simp [export_csv, is_favorited, is_plain_rated, is_watchlist, ht]
  · rcases hf : r.favorite <;>
      simp [export_csv, is_favorited, is_plain_rated, is_watchlist, ht, hf]

/-- A votebox whose record scrape succeeds: its year parses and its
rating block does not fail (helper hypothesis for the year-error
theorem). -/
def votebox_clean (page_type : FwTitleType) (v : RawVotebox) : Bool :=
  (match parse_year v.title_id v.year_str with
    | .ok _ => true
    | _ => false)
  && (match scrape_rating page_type v with
    | .ok _ => true
    | .error _ => false)

/-- A films-page votebox whose year string is the unparseable "abc". -/
def bad_year_votebox : RawVotebox :=
  ⟨11, ("abc"), ("T"), ("/film/T"), some none, some 100, []⟩

/-- C2 counterexample: a record whose year string fails to parse is not
skipped with the run continuing — the scrape worker for a page containing
it calls `std::process::exit(1)`, aborting the whole run, exactly as an
authentication-invalidated error does. -/
theorem year_error_exits_run : scrape_worker .Film [bad_year_votebox] = .exit1 := by decide

/-- C2 amended: a year-parse failure is fatal, not skipped: the first
record whose year string fails to parse aborts the whole page scrape
with `InvalidYear` carrying that record's id and string (the earlier
records having scraped cleanly), and the Stage-A worker then prints the
diagnostic and exits the process with status 1 — the same abort it
performs for an authentication-invalidated (`InvalidJwt`) error. -/
theorem year_error_aborts_run :
    ∀ (page_type : FwTitleType) (pre post : List RawVotebox) (v : RawVotebox),
    (∀ u ∈ pre, votebox_clean page_type u = true) →
    parse_year v.title_id v.year_str = .err (.InvalidYear v.title_id v.year_str) →
    scrape_records page_type (pre ++ v :: post)
      = .err (.InvalidYear v.title_id v.year_str)
    ∧ scrape_worker page_type (pre ++ v :: post) = .exit1 := by
  intro page_type pre post v hpre hv
  have hrec : scrape_records page_type (pre ++ v :: post)
      = .err (.InvalidYear v.title_id v.year_str) := by
    induction pre with
    | nil => simp [scrape_records, hv]
    | cons u us ih =>
      have hu : votebox_clean page_type u = true := hpre u (by simp)
      have step := ih (fun w hw => hpre w (by simp [hw]))
      rcases hy : parse_year u.title_id u.year_str with y | e | m
      · rcases hr : scrape_rating page_type u with e | rating
        · simp [votebox_clean, hy, hr] at hu
        · simp [scrape_records, hy, hr, step]
      · simp [votebox_clean, hy] at hu
      · simp [votebox_clean, hy] at hu
  exact ⟨hrec, by simp [scrape_worker, hrec]⟩

/-- A films-page votebox that scrapes cleanly. -/
def good_votebox : RawVotebox :=
  ⟨7, ("2001"), ("G"), ("/film/G"), some (some ⟨8, true, 0, 0⟩), some 120, []⟩

/-- Witness for the year-error theorem on a films page holding one clean
record followed by the bad-year record. -/
theorem year_error_aborts_run_witness :
    scrape_records .Film [good_votebox, bad_year_votebox]
      = .err (.InvalidYear 11 ("abc"))
    ∧ scrape_worker .Film [good_votebox, bad_year_votebox] = .exit1 :=
  year_error_aborts_run .Film [good_votebox] [] bad_year_votebox (by decide) (by decide)
